import Mathlib

/-!
# Verification of the blue/green deployment controller

Shallow embedding of `src/migration/deployment/blue_green_deployment.py`.

Modelling conventions, used consistently below:
* Python `float` arithmetic is modelled by exact rationals (`ℚ`).  Every
  comparison the controller performs against its thresholds is between a
  small integer-denominator rational and a constant, far from the region
  where IEEE double rounding could flip a verdict, so the rational model
  agrees with the float computation on all inputs that occur.
* `datetime` instants are modelled as rationals (seconds); `timedelta
  (seconds=d)` is subtraction of `d`.
* Network and database effects (load-balancer reconfiguration, health
  probes, row-count queries, metric sampling, the wall clock driving the
  monitoring loop) are environment oracles supplied as explicit inputs:
  the code's `try/except` handlers around those calls are embedded as
  case analysis on the oracle's answer.
* A Python exception that the source does not catch is an `Except.error` /
  `Option.none` outcome threaded to the nearest enclosing handler.
-/

set_option allowUnsafeReducibility true in
attribute [semireducible] Rat.add Rat.sub Rat.mul Rat.div Rat.inv

/-- Decidable equality of `Except` results, so that concrete runs of the
embedded functions can be settled by `decide`. -/
instance {ε α : Type} [DecidableEq ε] [DecidableEq α] : DecidableEq (Except ε α) :=
  fun a b =>
    match a, b with
    | Except.error e, Except.error f =>
      if h : e = f then Decidable.isTrue (by rw [h])
      else Decidable.isFalse (by intro hc; cases hc; exact h rfl)
    | Except.error _, Except.ok _ => Decidable.isFalse (by intro hc; cases hc)
    | Except.ok _, Except.error _ => Decidable.isFalse (by intro hc; cases hc)
    | Except.ok x, Except.ok y =>
      if h : x = y then Decidable.isTrue (by rw [h])
      else Decidable.isFalse (by intro hc; cases hc; exact h rfl)

namespace BlueGreen

/-- Deployment phases for gradual rollout (`DeploymentPhase` enum). -/
inductive DeploymentPhase where
  | preparation
  | phase_1_validation
  | phase_2_limited
  | phase_3_ab_test
  | phase_4_majority
  | phase_5_complete
  | rollback
deriving DecidableEq, Repr

/-- Environment types for blue-green deployment (`EnvironmentType` enum). -/
inductive EnvironmentType where
  | blue
  | green
deriving DecidableEq, Repr

/-- Status of deployment operations (`DeploymentStatus` enum). -/
inductive DeploymentStatus where
  | pending
  | in_progress
  | completed
  | failed
  | rolling_back
  | rolled_back
deriving DecidableEq, Repr

/-- Metrics collected during deployment (`DeploymentMetrics` dataclass). -/
structure DeploymentMetrics where
  timestamp : ℚ
  phase : DeploymentPhase
  traffic_percentage : ℚ
  response_time_p95 : ℚ
  error_rate : ℚ
  throughput : ℚ
  active_connections : ℤ
  memory_usage : ℚ
  cpu_usage : ℚ
  success_rate : ℚ
deriving DecidableEq, Repr

/-- The ten dataclass fields of `DeploymentMetrics`, in declaration order. -/
def DeploymentMetrics.fieldNames : List String :=
  ["timestamp", "phase", "traffic_percentage", "response_time_p95",
   "error_rate", "throughput", "active_connections", "memory_usage",
   "cpu_usage", "success_rate"]

/-- A Python attribute value as seen by `getattr(metric, name, None)`:
either a float-like number, or a non-numeric object (a `datetime`, the
phase enum member, the `to_dict` bound method, or an inherited dunder
attribute) whose comparison with a float raises `TypeError`. -/
inductive PyVal where
  | num (q : ℚ)
  | nonNum
deriving DecidableEq, Repr

/-- `name.startswith("__")`: the two leading characters are
underscores. -/
def starts_with_dunder (name : String) : Bool :=
  "__".data.isPrefixOf name.data

/-- Attribute lookup `getattr(metric, name, None)` on a `DeploymentMetrics`
instance.  The eight numeric fields yield numbers; `timestamp`, `phase`,
the `to_dict` method and double-underscore (inherited) attributes yield
non-numeric objects; any other name yields the `None` default.
(Treating every `__`-prefixed name as present over-approximates Python,
where a few such names are absent; the theorems below never rely on the
behaviour of that region.) -/
def DeploymentMetrics.getattrPy (m : DeploymentMetrics) (name : String) : Option PyVal :=
  if name = "timestamp" then some PyVal.nonNum
  else if name = "phase" then some PyVal.nonNum
  else if name = "traffic_percentage" then some (PyVal.num m.traffic_percentage)
  else if name = "response_time_p95" then some (PyVal.num m.response_time_p95)
  else if name = "error_rate" then some (PyVal.num m.error_rate)
  else if name = "throughput" then some (PyVal.num m.throughput)
  else if name = "active_connections" then some (PyVal.num (m.active_connections : ℚ))
  else if name = "memory_usage" then some (PyVal.num m.memory_usage)
  else if name = "cpu_usage" then some (PyVal.num m.cpu_usage)
  else if name = "success_rate" then some (PyVal.num m.success_rate)
  else if name = "to_dict" then some PyVal.nonNum
  else if starts_with_dunder name then some PyVal.nonNum
  else none

/-- Whether `name` resolves to some attribute of a `DeploymentMetrics`
instance (field, method, or inherited dunder attribute). -/
def DeploymentMetrics.hasAttr (name : String) : Bool :=
  DeploymentMetrics.fieldNames.contains name || name = "to_dict" || starts_with_dunder name

/-- `metric_name.replace('.', '_')`: with the one-character pattern
`'.'`, Python's `str.replace` is exactly per-character substitution. -/
def replace_dots (s : String) : String :=
  String.mk (s.data.map fun c => if c = '.' then '_' else c)

/-- Configuration for automatic rollback triggers (`RollbackTrigger`
dataclass). -/
structure RollbackTrigger where
  metric_name : String
  threshold : ℚ
  duration_seconds : ℤ
  comparison : String
  enabled : Bool := true
deriving DecidableEq, Repr

/-- The dictionary returned by `DeploymentMonitor.should_rollback`; keys
absent from a given return site are `none`. -/
structure RollbackDecision where
  should_rollback : Bool
  reason : Option String
  trigger : Option RollbackTrigger
  violation_percentage : Option ℚ
deriving DecidableEq, Repr

/-- `DeploymentMonitor` state: the configured triggers, the retained
metrics history, and the registered alert callbacks (abstracted to
opaque names; `should_rollback` never reads them). -/
structure DeploymentMonitor where
  rollback_triggers : List RollbackTrigger
  metrics_history : List DeploymentMetrics
  alert_callbacks : List String
deriving DecidableEq, Repr

/-- `DeploymentMonitor.record_metrics`: append the snapshot and keep only
the most recent 1000 entries. -/
def record_metrics (m : DeploymentMetrics) (mon : DeploymentMonitor) : DeploymentMonitor :=
  let h := mon.metrics_history ++ [m]
  { mon with metrics_history := if 1000 < h.length then h.drop (h.length - 1000) else h }

/-- `DeploymentMonitor._check_threshold_violation` applied to a raw
attribute value.  For the three recognised comparison strings a
non-numeric value raises `TypeError` (the comparison with a float is
unsupported); an unrecognised comparison string returns `False` without
ever touching the value. -/
def check_violation_py (value : PyVal) (threshold : ℚ) (comparison : String) :
    Except Unit Bool :=
  if comparison = "gt" then
    match value with
    | PyVal.num v => Except.ok (threshold < v)
    | PyVal.nonNum => Except.error ()
  else if comparison = "lt" then
    match value with
    | PyVal.num v => Except.ok (v < threshold)
    | PyVal.nonNum => Except.error ()
  else if comparison = "eq" then
    match value with
    | PyVal.num v => Except.ok (|v - threshold| < 1/1000)
    | PyVal.nonNum => Except.error ()
  else
    Except.ok false

/-- One iteration of the violation-counting loop body in
`should_rollback`: look the metric up by the trigger's (dot-replaced)
name; a `None` value is skipped (`continue`), a numeric value is tested
against the threshold, a non-numeric value propagates `TypeError`. -/
def snapshot_violates (trig : RollbackTrigger) (m : DeploymentMetrics) :
    Except Unit Bool :=
  match m.getattrPy (replace_dots trig.metric_name) with
  | none => Except.ok false
  | some v => check_violation_py v trig.threshold trig.comparison

/-- The violation count over a window of snapshots, in iteration order;
the first snapshot that raises aborts the count. -/
def count_violations (trig : RollbackTrigger) :
    List DeploymentMetrics → Except Unit ℕ
  | [] => Except.ok 0
  | m :: rest =>
    match snapshot_violates trig m with
    | Except.error e => Except.error e
    | Except.ok b =>
      match count_violations trig rest with
      | Except.error e => Except.error e
      | Except.ok n => Except.ok (if b then n + 1 else n)

/-- `recent_metrics`: the retained snapshots at or after
`now - timedelta(seconds=trigger.duration_seconds)`. -/
def recent_metrics (now : ℚ) (trig : RollbackTrigger)
    (hist : List DeploymentMetrics) : List DeploymentMetrics :=
  hist.filter fun m => now - (trig.duration_seconds : ℚ) ≤ m.timestamp

/-- The f-string reason recorded for a fired trigger. -/
def trigger_reason (trig : RollbackTrigger) : String :=
  "Metric " ++ trig.metric_name ++ " violated threshold " ++ toString trig.threshold
    ++ " for " ++ toString trig.duration_seconds ++ "s"

/-- The `for trigger in self.rollback_triggers` loop of
`should_rollback`, over a fixed history and evaluation instant. -/
def should_rollback_go (now : ℚ) (hist : List DeploymentMetrics) :
    List RollbackTrigger → Except Unit RollbackDecision
  | [] => Except.ok ⟨false, none, none, none⟩
  | trig :: rest =>
    if !trig.enabled then should_rollback_go now hist rest
    else
      let recent := recent_metrics now trig hist
      if recent.isEmpty then should_rollback_go now hist rest
      else
        match count_violations trig recent with
        | Except.error e => Except.error e
        | Except.ok v =>
          let pct : ℚ := (v : ℚ) / (recent.length : ℚ) * 100
          if 80 ≤ pct then
            Except.ok ⟨true, some (trigger_reason trig), some trig, some pct⟩
          else should_rollback_go now hist rest

/-- `DeploymentMonitor.should_rollback`, with the `datetime.now()` read
made explicit as the `now` argument.  An uncaught `TypeError` from a
non-numeric attribute comparison is the `Except.error` outcome. -/
def DeploymentMonitor.should_rollback (mon : DeploymentMonitor) (now : ℚ) :
    Except Unit RollbackDecision :=
  if mon.metrics_history.isEmpty then
    Except.ok ⟨false, some "No metrics available", none, none⟩
  else should_rollback_go now mon.metrics_history mon.rollback_triggers

/-- The outcome of evaluating one trigger in isolation: `ok true` when it
would fire (enabled, non-empty window, violation percentage at least 80),
`ok false` when it is passed over, `error` when its evaluation raises. -/
def trig_eval (now : ℚ) (hist : List DeploymentMetrics) (trig : RollbackTrigger) :
    Except Unit Bool :=
  if !trig.enabled then Except.ok false
  else
    let recent := recent_metrics now trig hist
    if recent.isEmpty then Except.ok false
    else
      match count_violations trig recent with
      | Except.error e => Except.error e
      | Except.ok v => Except.ok (decide (80 ≤ (v : ℚ) / (recent.length : ℚ) * 100))

/-- The violation percentage a trigger's window evaluates to (0 when the
count raises; only consulted when it does not). -/
def violation_pct (now : ℚ) (hist : List DeploymentMetrics) (trig : RollbackTrigger) : ℚ :=
  match count_violations trig (recent_metrics now trig hist) with
  | Except.error _ => 0
  | Except.ok v => (v : ℚ) / ((recent_metrics now trig hist).length : ℚ) * 100

/-- `TrafficManager` state: the stored `current_split` dictionary as the
pair `(blue, green)`, plus the running count of `set_traffic_split`
invocations, used to index the router oracle (one oracle answer is
consumed per call). -/
structure TrafficState where
  current_split : ℚ × ℚ
  calls : ℕ
deriving DecidableEq, Repr

/-- `TrafficManager.set_traffic_split`.  A pair not summing to 100 raises
`ValueError` before anything is touched.  Otherwise the body configures
the external load balancer inside `try/except`: `router` answers whether
that external reconfiguration succeeds for this call (in the shipped
source the HAProxy/Nginx network operations are commented out, so the
always-`true` oracle `routerAlwaysOk` reproduces its behaviour); on
success the split is stored and `True` returned, on an exception the
split is left unchanged and `False` returned. -/
def set_traffic_split (router : ℕ → Bool) (blue_percentage green_percentage : ℚ)
    (ts : TrafficState) : Except String (TrafficState × Bool) :=
  if blue_percentage + green_percentage ≠ 100 then
    Except.error "Traffic percentages must sum to 100"
  else
    let ts' : TrafficState := { ts with calls := ts.calls + 1 }
    if router ts.calls then
      Except.ok ({ ts' with current_split := (blue_percentage, green_percentage) }, true)
    else
      Except.ok (ts', false)

/-- `TrafficManager.get_current_split` (returns a copy of the stored
dictionary). -/
def get_current_split (ts : TrafficState) : ℚ × ℚ :=
  ts.current_split

/-- The router behaviour of the shipped source, whose external
reconfiguration calls are commented out and therefore never raise. -/
def routerAlwaysOk : ℕ → Bool := fun _ => true

/-- Traffic-manager states reachable from `__init__`
(`current_split = {'blue': 100, 'green': 0}`) by any sequence of
`set_traffic_split` calls under any router behaviour. -/
inductive TrafficReachable : TrafficState → Prop where
  | init : TrafficReachable ⟨(100, 0), 0⟩
  | step (router : ℕ → Bool) (b g : ℚ) (ts ts' : TrafficState) (r : Bool) :
      TrafficReachable ts →
      set_traffic_split router b g ts = Except.ok (ts', r) →
      TrafficReachable ts'

/-- One entry of the append-only deployment log
(`_log_deployment_event`).  The wall-clock timestamp is abstracted away;
of the `details` dictionary the claims only ever consult the `'reason'`
key, kept here as `details_reason` (`none` when the entry's details carry
no reason). -/
structure DeploymentLogEntry where
  phase : DeploymentPhase
  event : String
  details_reason : Option String
deriving DecidableEq, Repr

/-- The environment a deployment run executes against: every effectful
collaborator of the manager, made an explicit oracle.
* `router k`: whether the `k`-th load-balancer reconfiguration succeeds;
* `greenPrepHealthy` / `bluePrepHealthy`: the `overall_status == healthy`
  verdicts of the two preparation health checks;
* `blueRollbackHealthy`: the verdict of the blue health check performed
  during `execute_rollback`;
* `rowCount table env`: the `SELECT COUNT(*)` result for
  `_verify_data_synchronization` (`none` models a database exception);
* `ticks phase`: how many iterations the wall clock grants the phase's
  monitoring loop (`while time.time() - start < duration`);
* `sample k`: the metrics snapshot collected at the run's `k`-th tick
  (the source simulates this with random values; the randomness is an
  environment input here);
* `now k`: the `datetime.now()` instant at the `k`-th tick's
  `should_rollback` evaluation. -/
structure DeployEnv where
  router : ℕ → Bool
  greenPrepHealthy : Bool
  bluePrepHealthy : Bool
  blueRollbackHealthy : Bool
  rowCount : String → EnvironmentType → Option ℤ
  ticks : DeploymentPhase → ℕ
  sample : ℕ → DeploymentMetrics
  now : ℕ → ℚ

/-- The fixed list of critical tables checked by
`_verify_data_synchronization`. -/
def tables_to_check : List String :=
  ["users", "companies", "opportunities", "proposals"]

/-- The per-table loop of `_verify_data_synchronization`: compare blue
and green row counts; a mismatch returns `False`, a database exception
is caught by the surrounding `try` and returns `False`. -/
def verify_tables (env : DeployEnv) : List String → Bool
  | [] => true
  | t :: rest =>
    match env.rowCount t EnvironmentType.blue, env.rowCount t EnvironmentType.green with
    | some b, some g => if b ≠ g then false else verify_tables env rest
    | _, _ => false

/-- `BlueGreenDeploymentManager._verify_data_synchronization`. -/
def verify_data_synchronization (env : DeployEnv) : Bool :=
  verify_tables env tables_to_check

/-- The manager's default rollback triggers, as constructed in
`__init__`. -/
def default_rollback_triggers : List RollbackTrigger :=
  [⟨"error_rate", 10, 300, "gt", true⟩,
   ⟨"response_time_p95", 5000, 180, "gt", true⟩,
   ⟨"success_rate", 90, 120, "lt", true⟩,
   ⟨"throughput", 50, 240, "lt", true⟩]

/-- `BlueGreenDeploymentManager` mutable state: current phase and status,
the traffic manager, the deployment monitor, the append-only log, and
the run's global tick counter (indexing the `sample`/`now` oracles). -/
structure BlueGreenState where
  current_phase : DeploymentPhase
  deployment_status : DeploymentStatus
  traffic : TrafficState
  monitor : DeploymentMonitor
  deployment_log : List DeploymentLogEntry
  tick : ℕ
deriving DecidableEq, Repr

/-- The manager state right after `__init__`. -/
def initial_state : BlueGreenState where
  current_phase := DeploymentPhase.preparation
  deployment_status := DeploymentStatus.pending
  traffic := ⟨(100, 0), 0⟩
  monitor := ⟨default_rollback_triggers, [], []⟩
  deployment_log := []
  tick := 0

/-- `_log_deployment_event`: append an entry stamped with the current
phase. -/
def log_deployment_event (event : String) (reason : Option String)
    (s : BlueGreenState) : BlueGreenState :=
  { s with deployment_log := s.deployment_log ++ [⟨s.current_phase, event, reason⟩] }

/-- `BlueGreenDeploymentManager.execute_rollback`.  Sets status
`RollingBack` and phase `Rollback`, then inside `try`: one
`set_traffic_split(100.0, 0.0)` call (a `False` return aborts with
`False`); then the blue health check (an unhealthy verdict aborts with
`False`); then the log entry recording the reason; only then status
`RolledBack` and `True`. -/
def execute_rollback (env : DeployEnv) (reason : String) (s : BlueGreenState) :
    BlueGreenState × Bool :=
  let s := { s with deployment_status := DeploymentStatus.rolling_back,
                    current_phase := DeploymentPhase.rollback }
  match set_traffic_split env.router 100 0 s.traffic with
  | Except.error _ => (s, false)
  | Except.ok (ts, ok) =>
    let s := { s with traffic := ts }
    if !ok then (s, false)
    else if !env.blueRollbackHealthy then (s, false)
    else
      let s := log_deployment_event "Rollback completed" (some reason) s
      ({ s with deployment_status := DeploymentStatus.rolled_back }, true)

/-- The first two statements of each `_monitor_phase` loop iteration:
collect the tick's snapshot and record it with the monitor, advancing
the run's tick counter. -/
def monitor_step (env : DeployEnv) (s : BlueGreenState) : BlueGreenState :=
  { s with monitor := record_metrics (env.sample s.tick) s.monitor, tick := s.tick + 1 }

/-- `BlueGreenDeploymentManager._monitor_phase`, the per-phase tick
loop, with the number of wall-clock-granted iterations supplied by the
environment.  Each tick records a snapshot and asks `should_rollback`; a
fired decision executes the rollback (its return value is discarded, as
in the source) and exits the loop with `False`.  Result `some b` is a
normal return of `b`; `none` is an uncaught exception escaping the loop
(a `TypeError` from `should_rollback`). -/
def monitor_phase (env : DeployEnv) : ℕ → BlueGreenState → BlueGreenState × Option Bool
  | 0, s => (s, some true)
  | fuel + 1, s =>
    match (monitor_step env s).monitor.should_rollback (env.now s.tick) with
    | Except.error _ => (monitor_step env s, none)
    | Except.ok dec =>
      if dec.should_rollback then
        ((execute_rollback env (dec.reason.getD "") (monitor_step env s)).1, some false)
      else monitor_phase env fuel (monitor_step env s)

/-- `_execute_phase_preparation`: health-check both environments, then
verify data synchronisation; any failure returns `False` (none of these
checks lets an exception escape).  On success the completion event is
logged. -/
def execute_phase_preparation (env : DeployEnv) (s : BlueGreenState) :
    BlueGreenState × Bool :=
  let s := { s with current_phase := DeploymentPhase.preparation }
  if !env.greenPrepHealthy then (s, false)
  else if !env.bluePrepHealthy then (s, false)
  else if !verify_data_synchronization env then (s, false)
  else (log_deployment_event "Preparation phase completed" none s, true)

/-- Shared shape of `_execute_phase_1_validation` through
`_execute_phase_5_complete`: set the phase, request the phase's traffic
split (a `False` return aborts with `False`), then run the monitoring
loop. -/
def execute_traffic_phase (env : DeployEnv) (phase : DeploymentPhase)
    (blue_pct green_pct : ℚ) (s : BlueGreenState) : BlueGreenState × Option Bool :=
  let s := { s with current_phase := phase }
  match set_traffic_split env.router blue_pct green_pct s.traffic with
  | Except.error _ => (s, none)
  | Except.ok (ts, ok) =>
    let s := { s with traffic := ts }
    if !ok then (s, some false)
    else monitor_phase env (env.ticks phase) s

/-- The five traffic-bearing phases of `start_deployment`, in order,
each aborting the chain on a non-`true` outcome. -/
def phases_after_prep (env : DeployEnv) (s : BlueGreenState) :
    BlueGreenState × Option Bool :=
  match execute_traffic_phase env DeploymentPhase.phase_1_validation 95 5 s with
  | (s, some true) =>
    match execute_traffic_phase env DeploymentPhase.phase_2_limited 80 20 s with
    | (s, some true) =>
      match execute_traffic_phase env DeploymentPhase.phase_3_ab_test 50 50 s with
      | (s, some true) =>
        match execute_traffic_phase env DeploymentPhase.phase_4_majority 20 80 s with
        | (s, some true) =>
          execute_traffic_phase env DeploymentPhase.phase_5_complete 0 100 s
        | r => r
      | r => r
    | r => r
  | r => r

/-- `BlueGreenDeploymentManager.start_deployment`.  Status becomes
`InProgress`; a preparation failure or a phase returning `False` simply
returns `False` (no status update); only an exception escaping the `try`
body reaches the `except` branch, which sets status `Failed`, attempts
an automatic rollback, and returns `False`; full success sets
`Completed`. -/
def start_deployment (env : DeployEnv) (s₀ : BlueGreenState) : BlueGreenState × Bool :=
  let s := { s₀ with deployment_status := DeploymentStatus.in_progress }
  match execute_phase_preparation env s with
  | (s, false) => (s, false)
  | (s, true) =>
    match phases_after_prep env s with
    | (s, some true) => ({ s with deployment_status := DeploymentStatus.completed }, true)
    | (s, some false) => (s, false)
    | (s, none) =>
      let s := { s with deployment_status := DeploymentStatus.failed }
      ((execute_rollback env "Deployment failure" s).1, false)

/-- Substring test used to state what a recorded reason string
"includes". -/
def containsSubstr (s pat : String) : Bool :=
  s.data.tails.any fun t => pat.data.isPrefixOf t

/-- A concrete healthy-looking snapshot whose error rate (50%) violates
the default `error_rate > 10` trigger. -/
def exMetric : DeploymentMetrics where
  timestamp := 0
  phase := DeploymentPhase.phase_1_validation
  traffic_percentage := 5
  response_time_p95 := 100
  error_rate := 50
  throughput := 180
  active_connections := 60
  memory_usage := 70
  cpu_usage := 40
  success_rate := 99

/-- `exMetric` with a chosen timestamp and error rate. -/
def mkMetric (t e : ℚ) : DeploymentMetrics :=
  { exMetric with timestamp := t, error_rate := e }

/-- A single `error_rate > 10` trigger with a 300-second window. -/
def exTrigger : RollbackTrigger := ⟨"error_rate", 10, 300, "gt", true⟩

/-- Monitor with one snapshot recorded at instant 0. -/
def exMonC4 : DeploymentMonitor := ⟨[exTrigger], [exMetric], []⟩

/-- Monitor whose window holds five snapshots, four of them violating. -/
def exMonFourOfFive : DeploymentMonitor :=
  ⟨[exTrigger],
   [mkMetric 0 50, mkMetric 1 50, mkMetric 2 50, mkMetric 3 50, mkMetric 4 0], []⟩

/-- Monitor whose window holds five snapshots, three of them violating. -/
def exMonThreeOfFive : DeploymentMonitor :=
  ⟨[exTrigger],
   [mkMetric 0 50, mkMetric 1 50, mkMetric 2 50, mkMetric 3 0, mkMetric 4 0], []⟩

/-- Monitor configured with a dotted metric name that is not a field of
`DeploymentMetrics` but that the lookup's `replace('.', '_')` maps onto
the `error_rate` field. -/
def exTriggerDot : RollbackTrigger := ⟨"error.rate", 10, 300, "gt", true⟩

/-- Monitor for the dotted-name trigger. -/
def exMonDot : DeploymentMonitor := ⟨[exTriggerDot], [exMetric], []⟩

/-- A fully healthy environment whose sampled metrics violate the
default error-rate trigger at the very first tick of the first
traffic-bearing phase, and whose rollback succeeds. -/
def envHealthy : DeployEnv where
  router := routerAlwaysOk
  greenPrepHealthy := true
  bluePrepHealthy := true
  blueRollbackHealthy := true
  rowCount := fun _ _ => some 7
  ticks := fun _ => 1
  sample := fun _ => exMetric
  now := fun _ => 0

/-- `envHealthy` with a row-count mismatch between the two databases
(blue reports 5 rows, green 3, for every checked table). -/
def envMismatch : DeployEnv :=
  { envHealthy with
      rowCount := fun _ e =>
        match e with
        | EnvironmentType.blue => some 5
        | EnvironmentType.green => some 3 }

/-- A router that fails the first reconfiguration call and would succeed
on every later one. -/
def envRevertFails : DeployEnv :=
  { envHealthy with router := fun k => decide (k ≠ 0) }

/-- A mid-run state holding the phase-2 split (80, 20), about to be
rolled back. -/
def exStateC2 : BlueGreenState :=
  { initial_state with traffic := ⟨(80, 20), 0⟩ }

/-- Inversion of the trigger loop: a normal return is either the
no-trigger dictionary or the fired dictionary of some trigger of the
list whose non-empty window reached the 80% violation ratio. -/
lemma go_ok (now : ℚ) (hist : List DeploymentMetrics) :
    ∀ (ts : List RollbackTrigger) (d : RollbackDecision),
      should_rollback_go now hist ts = Except.ok d →
      d = ⟨false, none, none, none⟩ ∨
      ∃ trig v, trig ∈ ts ∧ trig.enabled = true ∧
        recent_metrics now trig hist ≠ [] ∧
        count_violations trig (recent_metrics now trig hist) = Except.ok v ∧
        80 ≤ (v : ℚ) / ((recent_metrics now trig hist).length : ℚ) * 100 ∧
        d = ⟨true, some (trigger_reason trig), some trig,
             some ((v : ℚ) / ((recent_metrics now trig hist).length : ℚ) * 100)⟩ := by
  intro ts
  induction ts with
  | nil =>
    intro d h
    left
    simp only [should_rollback_go, Except.ok.injEq] at h
    exact h.symm
  | cons t rest ih =>
    intro d h
    simp only [should_rollback_go] at h
    cases he : t.enabled with
    | false =>
      rw [he] at h
      simp only [Bool.not_false, if_pos rfl] at h
      rcases ih d h with hd | ⟨trig, v, hmem, rest'⟩
      · exact Or.inl hd
      · exact Or.inr ⟨trig, v, List.mem_cons_of_mem t hmem, rest'⟩
    | true =>
      rw [he] at h
      simp only [Bool.not_true, Bool.false_eq_true, if_false] at h
      cases hre : (recent_metrics now t hist).isEmpty with
      | true =>
        rw [hre] at h
        simp only [if_pos rfl] at h
        rcases ih d h with hd | ⟨trig, v, hmem, rest'⟩
        · exact Or.inl hd
        · exact Or.inr ⟨trig, v, List.mem_cons_of_mem t hmem, rest'⟩
      | false =>
        rw [hre] at h
        simp only [Bool.false_eq_true, if_false] at h
        cases hcv : count_violations t (recent_metrics now t hist) with
        | error e => simp [hcv] at h
        | ok v =>
          simp only [hcv] at h
          by_cases hp : (80 : ℚ) ≤ (v : ℚ) / ((recent_metrics now t hist).length : ℚ) * 100
          · rw [if_pos hp] at h
            cases h
            exact Or.inr ⟨t, v, List.mem_cons_self t rest, he,
              fun hnil => by simp [hnil] at hre, hcv, hp, rfl⟩
          · rw [if_neg hp] at h
            rcases ih d h with hd | ⟨trig, v', hmem, rest'⟩
            · exact Or.inl hd
            · exact Or.inr ⟨trig, v', List.mem_cons_of_mem t hmem, rest'⟩

/-- A fired `should_rollback` decision comes from a configured trigger
whose non-empty window reached the 80% ratio, and carries that trigger,
its reason string, and the computed violation percentage. -/
lemma should_rollback_fired (mon : DeploymentMonitor) (now : ℚ) (d : RollbackDecision)
    (h : mon.should_rollback now = Except.ok d) (hd : d.should_rollback = true) :
    ∃ trig v, trig ∈ mon.rollback_triggers ∧ trig.enabled = true ∧
      recent_metrics now trig mon.metrics_history ≠ [] ∧
      count_violations trig (recent_metrics now trig mon.metrics_history) = Except.ok v ∧
      80 ≤ (v : ℚ) / ((recent_metrics now trig mon.metrics_history).length : ℚ) * 100 ∧
      d = ⟨true, some (trigger_reason trig), some trig,
           some ((v : ℚ) / ((recent_metrics now trig mon.metrics_history).length : ℚ) * 100)⟩ := by
  unfold DeploymentMonitor.should_rollback at h
  by_cases hhe : mon.metrics_history.isEmpty = true
  · rw [if_pos hhe] at h
    injection h with h'
    rw [← h'] at hd
    simp at hd
  · rw [if_neg hhe] at h
    rcases go_ok now mon.metrics_history mon.rollback_triggers d h with hd' | hfired
    · rw [hd'] at hd; simp at hd
    · exact hfired

/-- Under the hypothesis that no listed trigger's evaluation raises, the
trigger loop returns the fired dictionary of the first trigger (in list
order) whose isolated evaluation fires, and the no-trigger dictionary
when none does. -/
lemma go_eq_find (now : ℚ) (hist : List DeploymentMetrics) :
    ∀ ts : List RollbackTrigger,
      (∀ t ∈ ts, trig_eval now hist t ≠ Except.error ()) →
      should_rollback_go now hist ts =
        match ts.find? (fun t => decide (trig_eval now hist t = Except.ok true)) with
        | none => Except.ok ⟨false, none, none, none⟩
        | some trig => Except.ok ⟨true, some (trigger_reason trig), some trig,
            some (violation_pct now hist trig)⟩ := by
  intro ts
  induction ts with
  | nil => intro _; simp [should_rollback_go, List.find?]
  | cons t rest ih =>
    intro hok
    have hokt : trig_eval now hist t ≠ Except.error () := hok t (List.mem_cons_self t rest)
    have hokr : ∀ u ∈ rest, trig_eval now hist u ≠ Except.error () :=
      fun u hu => hok u (List.mem_cons_of_mem t hu)
    cases he : t.enabled with
    | false =>
      have h1 : trig_eval now hist t = Except.ok false := by simp [trig_eval, he]
      simp [should_rollback_go, he, h1, ih hokr]
    | true =>
      cases hre : (recent_metrics now t hist).isEmpty with
      | true =>
        have h1 : trig_eval now hist t = Except.ok false := by simp [trig_eval, he, hre]
        simp [should_rollback_go, he, hre, h1, ih hokr]
      | false =>
        cases hcv : count_violations t (recent_metrics now t hist) with
        | error e =>
          exact absurd (by simp [trig_eval, he, hre, hcv]) hokt
        | ok v =>
          have h1 : trig_eval now hist t =
              Except.ok (decide
                (80 ≤ (v : ℚ) / ((recent_metrics now t hist).length : ℚ) * 100)) := by
            simp [trig_eval, he, hre, hcv]
          by_cases hp : (80 : ℚ) ≤ (v : ℚ) / ((recent_metrics now t hist).length : ℚ) * 100
          · have h2 : violation_pct now hist t =
                (v : ℚ) / ((recent_metrics now t hist).length : ℚ) * 100 := by
              simp [violation_pct, hcv]
            simp [should_rollback_go, he, hre, hcv, h1, hp, h2]
          · simp [should_rollback_go, he, hre, hcv, h1, hp, ih hokr]

/-- A trigger's isolated evaluation fires exactly when it is enabled,
its window is non-empty, and the violation count over the window reaches
the ratio `4/5` (the source's `violations / len(window) * 100 >= 80`). -/
lemma trig_eval_fires_iff (now : ℚ) (hist : List DeploymentMetrics)
    (trig : RollbackTrigger) :
    trig_eval now hist trig = Except.ok true ↔
      trig.enabled = true ∧ recent_metrics now trig hist ≠ [] ∧
      ∃ v, count_violations trig (recent_metrics now trig hist) = Except.ok v ∧
        (4 : ℚ) / 5 ≤ (v : ℚ) / ((recent_metrics now trig hist).length : ℚ) := by
  cases he : trig.enabled with
  | false => simp [trig_eval, he]
  | true =>
    cases hre : (recent_metrics now trig hist).isEmpty with
    | true =>
      have : recent_metrics now trig hist = [] := by
        rwa [List.isEmpty_iff] at hre
      simp [trig_eval, he, hre, this]
    | false =>
      have hne : recent_metrics now trig hist ≠ [] :=
        fun hnil => by simp [hnil] at hre
      have hlen : (0 : ℚ) < ((recent_metrics now trig hist).length : ℚ) := by
        exact_mod_cast List.length_pos.mpr hne
      cases hcv : count_violations trig (recent_metrics now trig hist) with
      | error e => simp [trig_eval, he, hre, hcv]
      | ok v =>
        have harith : (80 : ℚ) ≤ (v : ℚ) / ((recent_metrics now trig hist).length : ℚ) * 100 ↔
            (4 : ℚ) / 5 ≤ (v : ℚ) / ((recent_metrics now trig hist).length : ℚ) := by
          constructor <;> intro h <;> linarith
        simp [trig_eval, he, hre, hcv, hne, harith]

/-- When the revert's load-balancer reconfiguration fails,
`execute_rollback` returns `False` with the split untouched and the
status left `RollingBack`; exactly one routing call was consumed. -/
lemma execute_rollback_router_failed (env : DeployEnv) (reason : String)
    (s : BlueGreenState) (hr : env.router s.traffic.calls = false) :
    execute_rollback env reason s =
      ({ s with deployment_status := DeploymentStatus.rolling_back,
                current_phase := DeploymentPhase.rollback,
                traffic := { s.traffic with calls := s.traffic.calls + 1 } }, false) := by
  have hv : ((100 : ℚ) + 0 ≠ 100) = False := by norm_num
  simp [execute_rollback, set_traffic_split, hr, hv]

/-- When the revert call succeeds and blue is healthy,
`execute_rollback` stores the `(100, 0)` split, appends the log entry
carrying the reason, and sets status `RolledBack`. -/
lemma execute_rollback_success (env : DeployEnv) (reason : String)
    (s : BlueGreenState) (hr : env.router s.traffic.calls = true)
    (hb : env.blueRollbackHealthy = true) :
    execute_rollback env reason s =
      ({ s with deployment_status := DeploymentStatus.rolled_back,
                current_phase := DeploymentPhase.rollback,
                traffic := ⟨(100, 0), s.traffic.calls + 1⟩,
                deployment_log := s.deployment_log ++
                  [⟨DeploymentPhase.rollback, "Rollback completed", some reason⟩] }, true) := by
  have hv : ((100 : ℚ) + 0 ≠ 100) = False := by norm_num
  simp [execute_rollback, set_traffic_split, log_deployment_event, hr, hb, hv]

/-- When the revert call succeeds but the blue health check fails,
`execute_rollback` returns `False` with the split reverted but the
status left `RollingBack`. -/
lemma execute_rollback_unhealthy (env : DeployEnv) (reason : String)
    (s : BlueGreenState) (hr : env.router s.traffic.calls = true)
    (hb : env.blueRollbackHealthy = false) :
    execute_rollback env reason s =
      ({ s with deployment_status := DeploymentStatus.rolling_back,
                current_phase := DeploymentPhase.rollback,
                traffic := ⟨(100, 0), s.traffic.calls + 1⟩ }, false) := by
  have hv : ((100 : ℚ) + 0 ≠ 100) = False := by norm_num
  simp [execute_rollback, set_traffic_split, hr, hb, hv]

/-- A string sandwiched between two others is one of its substrings. -/
lemma containsSubstr_middle (a b c : String) : containsSubstr (a ++ b ++ c) b = true := by
  unfold containsSubstr
  rw [List.any_eq_true]
  refine ⟨b.data ++ c.data, ?_, ?_⟩
  · rw [List.mem_tails, String.data_append, String.data_append, List.append_assoc]
    exact List.suffix_append _ _
  · rw [List.isPrefixOf_iff_prefix]
    exact List.prefix_append _ _

/-- The fired reason string contains the trigger's metric name. -/
lemma trigger_reason_contains_name (trig : RollbackTrigger) :
    containsSubstr (trigger_reason trig) trig.metric_name = true := by
  have hsplit : trigger_reason trig =
      "Metric " ++ trig.metric_name ++
        (" violated threshold " ++ toString trig.threshold ++ " for "
          ++ toString trig.duration_seconds ++ "s") := by
    simp [trigger_reason, String.append_assoc]
  rw [hsplit]
  exact containsSubstr_middle _ _ _

set_option maxHeartbeats 1000000 in
/-- A name that resolves to no attribute makes `getattr` return the
`None` default on every snapshot. -/
lemma getattr_none_of_not_attr (name : String)
    (h : DeploymentMetrics.hasAttr name = false) (m : DeploymentMetrics) :
    m.getattrPy name = none := by
  have hmem : ¬ name ∈ DeploymentMetrics.fieldNames := by
    intro hmem
    rw [DeploymentMetrics.hasAttr] at h
    simp [hmem] at h
  rw [DeploymentMetrics.getattrPy]
  split_ifs with h1 h2 h3 h4 h5 h6 h7 h8 h9 h10 h11 h12
  · exact absurd (by rw [h1]; decide) hmem
  · exact absurd (by rw [h2]; decide) hmem
  · exact absurd (by rw [h3]; decide) hmem
  · exact absurd (by rw [h4]; decide) hmem
  · exact absurd (by rw [h5]; decide) hmem
  · exact absurd (by rw [h6]; decide) hmem
  · exact absurd (by rw [h7]; decide) hmem
  · exact absurd (by rw [h8]; decide) hmem
  · exact absurd (by rw [h9]; decide) hmem
  · exact absurd (by rw [h10]; decide) hmem
  · rw [DeploymentMetrics.hasAttr, h11] at h
    simp at h
  · rw [DeploymentMetrics.hasAttr] at h
    rw [h12] at h
    simp at h
  · rfl

/-- When every lookup yields `None`, each snapshot is skipped and the
violation count is 0 while the window keeps its length. -/
lemma count_violations_zero (trig : RollbackTrigger)
    (h : ∀ m : DeploymentMetrics, m.getattrPy (replace_dots trig.metric_name) = none) :
    ∀ w : List DeploymentMetrics, count_violations trig w = Except.ok 0 := by
  intro w
  induction w with
  | nil => rfl
  | cons m rest ih => simp [count_violations, snapshot_violates, h m, ih]

/-- C4 counterexample: with the metrics history and the trigger list both
held fixed, `should_rollback` still depends on the `datetime.now()` it
reads internally: the identical monitor fires when evaluated at instant
0 and reports no rollback when evaluated at instant 1000, so the
decision is not a function of the history and trigger list alone. -/
theorem should_rollback_clock_dependence :
    exMonC4.should_rollback 0 =
      Except.ok ⟨true, some (trigger_reason exTrigger), some exTrigger, some 100⟩ ∧
    exMonC4.should_rollback 1000 = Except.ok ⟨false, none, none, none⟩ ∧
    exMonC4.should_rollback 0 ≠ exMonC4.should_rollback 1000 :=
  ⟨by decide, by decide, by decide⟩

/-- C4 (amended): `DeploymentMonitor.should_rollback` is a pure function
of the metrics history, the trigger list, and the evaluation instant:
two monitors that agree on history and triggers produce identical
decisions at the same instant, independent of any other monitor state
(in particular the registered alert callbacks) and with no randomness. -/
theorem should_rollback_pure_function (now : ℚ) (m1 m2 : DeploymentMonitor)
    (ht : m1.rollback_triggers = m2.rollback_triggers)
    (hh : m1.metrics_history = m2.metrics_history) :
    m1.should_rollback now = m2.should_rollback now := by
  unfold DeploymentMonitor.should_rollback
  rw [ht, hh]

/-- Witness for C4's amended theorem: monitors differing only in their
alert callbacks decide identically. -/
theorem should_rollback_pure_function_witness :
    (⟨[exTrigger], [exMetric], ["pagerduty"]⟩ : DeploymentMonitor).should_rollback 0 =
      (⟨[exTrigger], [exMetric], []⟩ : DeploymentMonitor).should_rollback 0 :=
  should_rollback_pure_function 0 _ _ rfl rfl

/-- C5: on a non-empty history, and whenever no configured trigger's
window evaluation raises, `should_rollback` returns the fired dictionary
of the first trigger in list order whose isolated evaluation fires —
carrying that trigger, the reason string naming its metric, threshold
and duration, and the computed violation percentage — and the no-rollback
dictionary when none fires; and a trigger's evaluation fires exactly
when it is enabled, its window holds n >= 1 snapshots, and the violation
count v satisfies v / n >= 4/5 (the source's
`violations / len(window) * 100 >= 80`). -/
theorem should_rollback_eighty_percent_first_wins (now : ℚ) (mon : DeploymentMonitor)
    (hne : mon.metrics_history.isEmpty = false)
    (hok : ∀ t ∈ mon.rollback_triggers,
      trig_eval now mon.metrics_history t ≠ Except.error ()) :
    (mon.should_rollback now =
      match mon.rollback_triggers.find?
          (fun t => decide (trig_eval now mon.metrics_history t = Except.ok true)) with
      | none => Except.ok ⟨false, none, none, none⟩
      | some trig => Except.ok ⟨true, some (trigger_reason trig), some trig,
          some (violation_pct now mon.metrics_history trig)⟩) ∧
    (∀ trig : RollbackTrigger,
      trig_eval now mon.metrics_history trig = Except.ok true ↔
        trig.enabled = true ∧ recent_metrics now trig mon.metrics_history ≠ [] ∧
        ∃ v, count_violations trig (recent_metrics now trig mon.metrics_history) =
            Except.ok v ∧
          (4 : ℚ) / 5 ≤ (v : ℚ) / ((recent_metrics now trig mon.metrics_history).length : ℚ)) := by
  constructor
  · unfold DeploymentMonitor.should_rollback
    rw [hne]
    simp only [Bool.false_eq_true, if_false]
    exact go_eq_find now mon.metrics_history mon.rollback_triggers hok
  · intro trig
    exact trig_eval_fires_iff now mon.metrics_history trig

/-- Witness for C5: five snapshots with four violating (ratio exactly
80%) fire the trigger with violation percentage 80; three violating
(60%) do not fire. -/
theorem should_rollback_eighty_percent_first_wins_witness :
    exMonFourOfFive.should_rollback 100 =
      Except.ok ⟨true, some (trigger_reason exTrigger), some exTrigger, some 80⟩ ∧
    exMonThreeOfFive.should_rollback 100 = Except.ok ⟨false, none, none, none⟩ := by
  constructor
  · have h := (should_rollback_eighty_percent_first_wins 100 exMonFourOfFive
      (by decide) (by decide)).1
    rw [h]; decide
  · have h := (should_rollback_eighty_percent_first_wins 100 exMonThreeOfFive
      (by decide) (by decide)).1
    rw [h]; decide

/-- C6: a trigger whose sliding window [now - duration, now] holds no
retained snapshot (all retained snapshots predate the window; snapshots
are recorded at past instants, so their timestamps are at most `now`)
never appears in a rollback decision, whatever its threshold; and on an
entirely empty history `should_rollback` always reports no rollback. -/
theorem empty_window_trigger_never_fires (now : ℚ) (mon : DeploymentMonitor)
    (trig : RollbackTrigger)
    (hpast : ∀ m ∈ mon.metrics_history, m.timestamp ≤ now)
    (hwin : ∀ m ∈ mon.metrics_history,
      ¬ (now - (trig.duration_seconds : ℚ) ≤ m.timestamp ∧ m.timestamp ≤ now)) :
    (∀ d, mon.should_rollback now = Except.ok d → d.trigger ≠ some trig) ∧
    (∀ mon2 : DeploymentMonitor, mon2.metrics_history = [] →
      mon2.should_rollback now =
        Except.ok ⟨false, some "No metrics available", none, none⟩) := by
  constructor
  · intro d h htrig
    have hre : recent_metrics now trig mon.metrics_history = [] := by
      rw [recent_metrics, List.filter_eq_nil_iff]
      intro m hm
      simp only [decide_eq_true_eq]
      intro hcut
      exact hwin m hm ⟨hcut, hpast m hm⟩
    unfold DeploymentMonitor.should_rollback at h
    by_cases hhe : mon.metrics_history.isEmpty = true
    · rw [if_pos hhe] at h
      injection h with h'
      rw [← h'] at htrig
      simp at htrig
    · rw [if_neg hhe] at h
      rcases go_ok now mon.metrics_history mon.rollback_triggers d h with
        hd' | ⟨trig', v, hmem, hen, hne', hcv, hge, hdeq⟩
      · rw [hd'] at htrig; simp at htrig
      · rw [hdeq] at htrig
        simp only [Option.some.injEq] at htrig
        rw [htrig] at hne'
        exact hne' hre
  · intro mon2 h2
    simp [DeploymentMonitor.should_rollback, h2]

/-- Witness for C6 at a concrete input: at instant 1000 the single
retained snapshot (timestamp 0) lies outside the 300-second window, so
the no-rollback decision's trigger field never names the trigger; and
the fresh monitor with an empty history reports no rollback. -/
theorem empty_window_trigger_never_fires_witness :
    ((⟨false, none, none, none⟩ : RollbackDecision).trigger ≠ some exTrigger) ∧
    (⟨[exTrigger], [], []⟩ : DeploymentMonitor).should_rollback 1000 =
      Except.ok ⟨false, some "No metrics available", none, none⟩ := by
  have h := empty_window_trigger_never_fires 1000 exMonC4 exTrigger (by decide) (by decide)
  exact ⟨h.1 ⟨false, none, none, none⟩ (by decide), h.2 ⟨[exTrigger], [], []⟩ rfl⟩

/-- C10 counterexample: the metric name `error.rate` names no field of
`DeploymentMetrics` (and no attribute at all), yet its trigger fires,
because the lookup first replaces `'.'` by `'_'` and then finds the
`error_rate` field — refuting the claim that a trigger whose
`metric_name` is not a field can never produce a rollback decision. -/
theorem dotted_metric_name_fires_counterexample :
    DeploymentMetrics.fieldNames.contains "error.rate" = false ∧
    DeploymentMetrics.hasAttr "error.rate" = false ∧
    exMonDot.should_rollback 0 =
      Except.ok ⟨true, some (trigger_reason exTriggerDot), some exTriggerDot, some 100⟩ :=
  ⟨by decide, by decide, by decide⟩

/-- C10 (amended): for every trigger whose metric name, after the
lookup's replacement of `'.'` by `'_'`, resolves to no attribute of
`DeploymentMetrics` (no field, not the `to_dict` method, not a
double-underscore inherited attribute), evaluation is total and the
trigger never fires: every snapshot's lookup yields the `None` default,
the violation count over any window is 0 (while the window keeps its
snapshots), and no rollback decision ever names that trigger. -/
theorem unknown_metric_never_fires (now : ℚ) (mon : DeploymentMonitor)
    (trig : RollbackTrigger)
    (hattr : DeploymentMetrics.hasAttr (replace_dots trig.metric_name) = false) :
    (∀ m : DeploymentMetrics, m.getattrPy (replace_dots trig.metric_name) = none) ∧
    (∀ w : List DeploymentMetrics, count_violations trig w = Except.ok 0) ∧
    (∀ d, mon.should_rollback now = Except.ok d → d.trigger ≠ some trig) := by
  have hnone := getattr_none_of_not_attr (replace_dots trig.metric_name) hattr
  have hzero := count_violations_zero trig hnone
  refine ⟨hnone, hzero, ?_⟩
  intro d h htrig
  unfold DeploymentMonitor.should_rollback at h
  by_cases hhe : mon.metrics_history.isEmpty = true
  · rw [if_pos hhe] at h
    injection h with h'
    rw [← h'] at htrig
    simp at htrig
  · rw [if_neg hhe] at h
    rcases go_ok now mon.metrics_history mon.rollback_triggers d h with
      hd' | ⟨trig', v, hmem, hen, hne', hcv, hge, hdeq⟩
    · rw [hd'] at htrig; simp at htrig
    · rw [hdeq] at htrig
      simp only [Option.some.injEq] at htrig
      rw [htrig] at hcv hge
      rw [hzero (recent_metrics now trig mon.metrics_history)] at hcv
      injection hcv with hv
      rw [← hv] at hge
      simp only [Nat.cast_zero, zero_div, zero_mul] at hge
      norm_num at hge

/-- Witness for C10's amended theorem: the name `latency` resolves to no
attribute, so its lookup yields `None` on the sample snapshot and its
violation count over a one-snapshot window is 0. -/
theorem unknown_metric_never_fires_witness :
    exMetric.getattrPy (replace_dots "latency") = none ∧
    count_violations ⟨"latency", 1, 60, "gt", true⟩ [exMetric] = Except.ok 0 := by
  have h := unknown_metric_never_fires 0 exMonC4 ⟨"latency", 1, 60, "gt", true⟩ (by decide)
  exact ⟨h.1 exMetric, h.2.1 [exMetric]⟩

/-- C7: `set_traffic_split` raises `ValueError` for any pair not summing
to 100, leaving the stored split untouched (no state is produced on that
path), and every state reachable from the initial `(100, 0)` split by
any sequence of calls, under any router behaviour, stores a split whose
components sum to 100. -/
theorem traffic_split_sums_to_100 :
    (∀ ts : TrafficState, TrafficReachable ts →
      ts.current_split.1 + ts.current_split.2 = 100) ∧
    (∀ (router : ℕ → Bool) (b g : ℚ) (ts : TrafficState), b + g ≠ 100 →
      set_traffic_split router b g ts =
        Except.error "Traffic percentages must sum to 100") := by
  constructor
  · intro ts h
    induction h with
    | init => norm_num
    | step router b g ts0 ts' r hreach heq ih =>
      rw [set_traffic_split] at heq
      by_cases hbg : b + g ≠ 100
      · rw [if_pos hbg] at heq
        cases heq
      · rw [if_neg hbg] at heq
        push_neg at hbg
        by_cases hrt : ((router ts0.calls) = true)
        · rw [if_pos hrt] at heq
          injection heq with hp
          injection hp with hts hrr
          rw [← hts]
          simpa using hbg
        · rw [if_neg hrt] at heq
          injection heq with hp
          injection hp with hts hrr
          rw [← hts]
          exact ih
  · intro router b g ts h
    rw [set_traffic_split, if_pos h]

/-- Witness for C7: the initial state satisfies the invariant, and a
pair summing to 90 is rejected with `ValueError`. -/
theorem traffic_split_sums_to_100_witness :
    ((⟨(100, 0), 0⟩ : TrafficState).current_split.1 +
      (⟨(100, 0), 0⟩ : TrafficState).current_split.2 = 100) ∧
    set_traffic_split routerAlwaysOk 60 30 ⟨(100, 0), 0⟩ =
      Except.error "Traffic percentages must sum to 100" := by
  have h := traffic_split_sums_to_100
  exact ⟨h.1 ⟨(100, 0), 0⟩ TrafficReachable.init, h.2 routerAlwaysOk 60 30 ⟨(100, 0), 0⟩
    (by norm_num)⟩

/-- C8: under the shipped router behaviour (the external reconfiguration
calls are commented out and never raise), two consecutive
`set_traffic_split` calls with the same valid pair both report success,
the observed split after the second call equals the one after the
first, and that split is the requested pair — idempotence. -/
theorem set_traffic_split_idempotent (b g : ℚ) (ts : TrafficState) (h : b + g = 100) :
    ∃ ts1 ts2 : TrafficState,
      set_traffic_split routerAlwaysOk b g ts = Except.ok (ts1, true) ∧
      set_traffic_split routerAlwaysOk b g ts1 = Except.ok (ts2, true) ∧
      get_current_split ts2 = get_current_split ts1 ∧
      get_current_split ts1 = (b, g) := by
  refine ⟨⟨(b, g), ts.calls + 1⟩, ⟨(b, g), ts.calls + 1 + 1⟩, ?_, ?_, rfl, rfl⟩
  · simp [set_traffic_split, routerAlwaysOk, h]
  · simp [set_traffic_split, routerAlwaysOk, h]

/-- Witness for C8 at the concrete pair (80, 20). -/
theorem set_traffic_split_idempotent_witness :
    ∃ ts1 ts2 : TrafficState,
      set_traffic_split routerAlwaysOk 80 20 ⟨(100, 0), 0⟩ = Except.ok (ts1, true) ∧
      set_traffic_split routerAlwaysOk 80 20 ts1 = Except.ok (ts2, true) ∧
      get_current_split ts2 = get_current_split ts1 ∧
      get_current_split ts1 = (80, 20) :=
  set_traffic_split_idempotent 80 20 ⟨(100, 0), 0⟩ (by norm_num)

/-- C2 counterexample: with a router that fails the first
reconfiguration and would succeed on every later one, `execute_rollback`
returns failure after consuming exactly one routing call, leaving the
split untouched — it never retries, although the very next call would
have succeeded (so no retry budget beyond the single attempt exists, and
no escalation loop runs). -/
theorem rollback_revert_no_retry_counterexample :
    (execute_rollback envRevertFails "boom" exStateC2).2 = false ∧
    (execute_rollback envRevertFails "boom" exStateC2).1.traffic.current_split = (80, 20) ∧
    (execute_rollback envRevertFails "boom" exStateC2).1.traffic.calls = 1 ∧
    envRevertFails.router 1 = true :=
  ⟨by decide, by decide, by decide, by decide⟩

/-- C2 (amended): when the revert-to-original call fails,
`execute_rollback` makes no retry at all: it performs exactly one
`set_traffic_split(100, 0)` attempt, and on its failure immediately
returns `False`, leaving the split unchanged and the status
`RollingBack` — the escalation is this failure return and the alarming
status, not a retry loop. -/
theorem execute_rollback_no_retry (env : DeployEnv) (reason : String)
    (s : BlueGreenState) (hr : env.router s.traffic.calls = false) :
    execute_rollback env reason s =
      ({ s with deployment_status := DeploymentStatus.rolling_back,
                current_phase := DeploymentPhase.rollback,
                traffic := { s.traffic with calls := s.traffic.calls + 1 } }, false) :=
  execute_rollback_router_failed env reason s hr

/-- Witness for C2's amended theorem at the concrete failing router. -/
theorem execute_rollback_no_retry_witness :
    execute_rollback envRevertFails "boom" exStateC2 =
      ({ exStateC2 with deployment_status := DeploymentStatus.rolling_back,
                        current_phase := DeploymentPhase.rollback,
                        traffic := { exStateC2.traffic with
                                      calls := exStateC2.traffic.calls + 1 } }, false) :=
  execute_rollback_no_retry envRevertFails "boom" exStateC2 (by decide)

/-- C3: the status `RolledBack` is reached exactly when the single
revert call succeeds and the blue environment then reports healthy;
whenever the revert call fails, the run keeps status `RollingBack`,
`execute_rollback` reports failure, and the split is untouched; and a
state whose status is `RolledBack` stores the reverted `(100, 0)`
split. -/
theorem rolled_back_iff_revert_success (env : DeployEnv) (reason : String)
    (s : BlueGreenState) :
    ((execute_rollback env reason s).1.deployment_status = DeploymentStatus.rolled_back ↔
      env.router s.traffic.calls = true ∧ env.blueRollbackHealthy = true) ∧
    (env.router s.traffic.calls = false →
      (execute_rollback env reason s).2 = false ∧
      (execute_rollback env reason s).1.deployment_status = DeploymentStatus.rolling_back ∧
      (execute_rollback env reason s).1.traffic.current_split = s.traffic.current_split) ∧
    ((execute_rollback env reason s).1.deployment_status = DeploymentStatus.rolled_back →
      (execute_rollback env reason s).1.traffic.current_split = (100, 0)) := by
  cases hr : env.router s.traffic.calls with
  | false =>
    rw [execute_rollback_router_failed env reason s hr]
    refine ⟨by simp, fun _ => ⟨rfl, rfl, rfl⟩, ?_⟩
    intro hco
    simp at hco
  | true =>
    cases hb : env.blueRollbackHealthy with
    | false =>
      rw [execute_rollback_unhealthy env reason s hr hb]
      refine ⟨by simp, ?_, ?_⟩
      · intro hf
        simp at hf
      · intro hco
        simp at hco
    | true =>
      rw [execute_rollback_success env reason s hr hb]
      refine ⟨by simp, ?_, fun _ => rfl⟩
      intro hf
      simp at hf

/-- Witness for C3: a successful revert ends `RolledBack`; the failing
revert keeps `RollingBack` and reports failure. -/
theorem rolled_back_iff_revert_success_witness :
    (execute_rollback envHealthy "r" initial_state).1.deployment_status =
      DeploymentStatus.rolled_back ∧
    (execute_rollback envRevertFails "r" initial_state).2 = false ∧
    (execute_rollback envRevertFails "r" initial_state).1.deployment_status =
      DeploymentStatus.rolling_back := by
  have h1 := (rolled_back_iff_revert_success envHealthy "r" initial_state).1
  have h2 := (rolled_back_iff_revert_success envRevertFails "r" initial_state).2.1
  exact ⟨h1.mpr ⟨rfl, rfl⟩, (h2 (by decide)).1, (h2 (by decide)).2.1⟩

/-- Every failing branch of the preparation phase (unhealthy green,
unhealthy blue, or failed data-synchronisation check) returns `False`
with the state untouched except for the phase marker. -/
lemma execute_phase_preparation_fails (env : DeployEnv) (s : BlueGreenState)
    (hfail : env.greenPrepHealthy = false ∨ env.bluePrepHealthy = false ∨
      verify_data_synchronization env = false) :
    execute_phase_preparation env s =
      ({ s with current_phase := DeploymentPhase.preparation }, false) := by
  rcases hfail with h | h | h
  · simp [execute_phase_preparation, h]
  · cases hg : env.greenPrepHealthy <;>
      simp [execute_phase_preparation, h, hg]
  · cases hg : env.greenPrepHealthy <;> cases hb : env.bluePrepHealthy <;>
      simp [execute_phase_preparation, h, hg, hb]

/-- C1 counterexample: a run whose preparation detects a row-count
mismatch returns `False`, but its final `DeploymentStatus` is
`InProgress`, not `Failed` — the `Failed` status is set only in the
`except` branch of `start_deployment`, which a preparation check failure
(a plain `False` return) never reaches.  The rest of the claimed
behaviour does hold at this input: the split never leaves (100, 0) and
no routing call or rollback happens. -/
theorem preparation_mismatch_not_failed :
    verify_data_synchronization envMismatch = false ∧
    (start_deployment envMismatch initial_state).2 = false ∧
    (start_deployment envMismatch initial_state).1.deployment_status ≠
      DeploymentStatus.failed ∧
    (start_deployment envMismatch initial_state).1.deployment_status =
      DeploymentStatus.in_progress ∧
    (start_deployment envMismatch initial_state).1.traffic.current_split = (100, 0) :=
  ⟨by decide, by decide, by decide, by decide, by decide⟩

/-- C1 (amended): if the preparation phase fails (either health check
unhealthy, or the row-count consistency check fails), `start_deployment`
returns `False` with the status left `InProgress` (never `Failed`, which
only an escaping exception sets), no `set_traffic_split` call is ever
made, the traffic split stays at (100, 0), and no rollback is executed
(the phase stays `Preparation` and the status is neither `RollingBack`
nor `RolledBack`) — a terminal path distinct from `RolledBack`. -/
theorem preparation_failure_leaves_in_progress (env : DeployEnv)
    (hfail : env.greenPrepHealthy = false ∨ env.bluePrepHealthy = false ∨
      verify_data_synchronization env = false) :
    (start_deployment env initial_state).2 = false ∧
    (start_deployment env initial_state).1.deployment_status =
      DeploymentStatus.in_progress ∧
    (start_deployment env initial_state).1.deployment_status ≠ DeploymentStatus.failed ∧
    (start_deployment env initial_state).1.traffic.current_split = (100, 0) ∧
    (start_deployment env initial_state).1.traffic.calls = 0 ∧
    (start_deployment env initial_state).1.current_phase = DeploymentPhase.preparation ∧
    (start_deployment env initial_state).1.deployment_status ≠
      DeploymentStatus.rolling_back ∧
    (start_deployment env initial_state).1.deployment_status ≠
      DeploymentStatus.rolled_back := by
  have hstep : start_deployment env initial_state =
      ({ initial_state with deployment_status := DeploymentStatus.in_progress }, false) := by
    simp only [start_deployment,
      execute_phase_preparation_fails env
        { initial_state with deployment_status := DeploymentStatus.in_progress } hfail]
    rfl
  rw [hstep]
  exact ⟨rfl, rfl, by decide, rfl, rfl, rfl, by decide, by decide⟩

/-- Witness for C1's amended theorem at the mismatching environment. -/
theorem preparation_failure_leaves_in_progress_witness :
    verify_data_synchronization envMismatch = false ∧
    (start_deployment envMismatch initial_state).2 = false ∧
    (start_deployment envMismatch initial_state).1.deployment_status =
      DeploymentStatus.in_progress ∧
    (start_deployment envMismatch initial_state).1.traffic.calls = 0 := by
  have h := preparation_failure_leaves_in_progress envMismatch
    (Or.inr (Or.inr (by decide)))
  exact ⟨by decide, h.1, h.2.1, h.2.2.2.2.1⟩

/-- C9 counterexample: in a full run whose first traffic-bearing phase
fires the `error_rate` trigger with a measured violation percentage of
100, the run does end `RolledBack` with final split (100, 0) and the log
does name the triggering metric — but no log entry's recorded reason
contains the measured violation ratio: the reason string is built only
from the metric name, threshold and duration, and the percentage stays
in the in-memory decision dictionary. -/
theorem rollback_log_lacks_ratio_counterexample :
    (start_deployment envHealthy initial_state).1.deployment_status =
      DeploymentStatus.rolled_back ∧
    (start_deployment envHealthy initial_state).1.traffic.current_split = (100, 0) ∧
    (start_deployment envHealthy initial_state).1.deployment_log =
      [⟨DeploymentPhase.preparation, "Preparation phase completed", none⟩,
       ⟨DeploymentPhase.rollback, "Rollback completed",
        some "Metric error_rate violated threshold 10 for 300s"⟩] ∧
    (record_metrics (envHealthy.sample 0) initial_state.monitor).should_rollback
        (envHealthy.now 0) =
      Except.ok ⟨true, some "Metric error_rate violated threshold 10 for 300s",
        some exTrigger, some 100⟩ ∧
    containsSubstr "Metric error_rate violated threshold 10 for 300s" "error_rate" = true ∧
    containsSubstr "Metric error_rate violated threshold 10 for 300s" "100" = false :=
  ⟨by decide, by decide, by decide, by decide, by decide, by decide⟩

/-- C9 (amended): when a monitoring loop exits with `False` (a fired
trigger executed the rollback) and the revert call succeeds with blue
healthy, the run ends with status `RolledBack` and final split (100, 0),
and the deployment log contains a `Rollback completed` entry whose
recorded reason is the fired trigger's reason string, which includes the
triggering metric's name (with its threshold and duration) — but not the
measured violation ratio, which appears only in the in-memory
decision. -/
theorem rollback_trigger_run_rolled_back (env : DeployEnv) :
    ∀ (fuel : ℕ) (s s' : BlueGreenState),
      monitor_phase env fuel s = (s', some false) →
      env.router s.traffic.calls = true →
      env.blueRollbackHealthy = true →
      s'.deployment_status = DeploymentStatus.rolled_back ∧
      s'.traffic.current_split = (100, 0) ∧
      ∃ trig, trig ∈ s.monitor.rollback_triggers ∧
        (∃ e ∈ s'.deployment_log, e.event = "Rollback completed" ∧
          e.details_reason = some (trigger_reason trig)) ∧
        containsSubstr (trigger_reason trig) trig.metric_name = true := by
  intro fuel
  induction fuel with
  | zero =>
    intro s s' h _ _
    simp [monitor_phase] at h
  | succ n ih =>
    intro s s' h hr hb
    simp only [monitor_phase] at h
    cases hsr : (monitor_step env s).monitor.should_rollback (env.now s.tick) with
    | error e =>
      simp only [hsr] at h
      injection h with h1 h2
      exact Option.noConfusion h2
    | ok dec =>
      simp only [hsr] at h
      by_cases hdec : dec.should_rollback = true
      · rw [if_pos hdec] at h
        injection h with h1 h2
        obtain ⟨trig, v, hmem, hen, hne, hcv, hge, hdshape⟩ :=
          should_rollback_fired _ _ _ hsr hdec
        have hreason : dec.reason.getD "" = trigger_reason trig := by
          rw [hdshape]
          rfl
        rw [hreason] at h1
        have hrb := execute_rollback_success env (trigger_reason trig)
          (monitor_step env s) hr hb
        rw [hrb] at h1
        rw [← h1]
        refine ⟨rfl, rfl, trig, hmem, ⟨⟨DeploymentPhase.rollback, "Rollback completed",
          some (trigger_reason trig)⟩, ?_, rfl, rfl⟩, trigger_reason_contains_name trig⟩
        exact List.mem_append_right _ (List.mem_singleton_self _)
      · rw [if_neg hdec] at h
        exact ih (monitor_step env s) s' h hr hb

/-- Witness for C9's amended theorem: the concrete one-tick monitoring
loop whose sampled error rate fires the default trigger ends
`RolledBack` at split (100, 0). -/
theorem rollback_trigger_run_rolled_back_witness :
    (monitor_phase envHealthy 1 initial_state).1.deployment_status =
      DeploymentStatus.rolled_back ∧
    (monitor_phase envHealthy 1 initial_state).1.traffic.current_split = (100, 0) := by
  have h := rollback_trigger_run_rolled_back envHealthy 1 initial_state
    (monitor_phase envHealthy 1 initial_state).1 (by decide) (by decide) (by decide)
  exact ⟨h.1, h.2.1⟩

end BlueGreen
